import Mathlib

/-!
Shallow embedding of SnowAlert's alert handler core
(src/runners/alert_handler.py), together with the alerts-table schema from
src/scripts/install.py, and proofs of the spec's claims about it.

Modelling conventions:
- The warehouse's alerts table is a list of rows (`AlertsStore`); SQL
  statements issued by the handler become list operations on it.
- Nondeterministic inputs of a run (uuid.uuid4().hex, datetime.utcnow(),
  the CLOUDWATCH_METRICS flag, injected store errors, and the opaque
  create_jira.handle_alert callback) are fields of an `Env` record.
- Observable actions (prints, log.error/log.info calls, executed INSERT
  and DELETE statements, handler invocations, metric emissions) are
  recorded in a trace of `Event`s.
- Fallible store calls return `Except`; Python's try/except blocks become
  `match` on that result, exactly where the source has them.
-/

namespace SnowAlert

/-- The JSON body stored in the ALERT column of a row. The fields are the
keys written by log_failure; HANDLERS is optional because main reads it
with alert_body.get('HANDLERS', ['jira']). -/
structure AlertBody where
  alert_id : String
  query_id : String
  query_name : String
  environment : String
  sources : List String
  actor : String
  object : String
  action : String
  title : String
  event_time : String
  alert_time : String
  description : String
  detector : String
  event_data : String
  severity : String
  handlers : Option (List String)
deriving DecidableEq

/-- One row of results.alerts, per the CREATE TABLE in install.py:
alert VARIANT, alert_time, event_time, ticket STRING, correlation_id
STRING, suppressed BOOLEAN, suppression_rule STRING DEFAULT NULL,
counter INTEGER DEFAULT 1. Timestamps in the event_time column are
modelled as naturals; NULL columns are `none`. -/
structure AlertRow where
  alert : AlertBody
  alert_time : String
  event_time : Option Nat
  ticket : Option String
  correlation_id : Option String
  suppressed : Option Bool
  suppression_rule : Option String
  counter : Int
deriving DecidableEq

/-- The alerts table. -/
structure AlertsStore where
  rows : List AlertRow
deriving DecidableEq

/-- Observable actions of a run. -/
inductive Event where
  | printed (msg : String)
  | infoLogged (msg : String)
  | errorLogged (msg : String)
  | inserted (bodies : List AlertBody)
  | deleted (alert_id : String)
  | handlerInvoked (handler : String) (alert_id : String)
  | metricLogged (name : String) (nspace : String)
      (dims : List (String × String)) (value : Nat)
deriving DecidableEq

/-- Per-run environment: the sources of nondeterminism of one run. -/
structure Env where
  /-- the INSERT issued by log_alerts raises in this run -/
  insertFails : Bool
  /-- the DELETE issued by log_failure raises in this run -/
  deleteFails : Bool
  /-- log.metric raises in this run -/
  metricFails : Bool
  /-- truthiness of config.CLOUDWATCH_METRICS -/
  cloudwatchMetrics : Bool
  /-- str(datetime.datetime.utcnow()) at this run -/
  now : String
  /-- uuid.uuid4().hex generated in log_failure -/
  freshId : String
  /-- create_jira.handle_alert: None on success, a stringified error on
  failure -/
  handleAlert : String → AlertRow → Option String

/-- The row created by the INSERT in log_alerts: only the alert_time and
alert columns are set (alert_time from the body's ALERT_TIME key); the
remaining columns take their schema defaults, NULL except counter = 1. -/
def insertRow (b : AlertBody) : AlertRow :=
  { alert := b
    alert_time := b.alert_time
    event_time := none
    ticket := none
    correlation_id := none
    suppressed := none
    suppression_rule := none
    counter := 1 }

/-- Execution of the INSERT INTO results.alerts statement; raises iff the
environment injects a store error. -/
def dbInsertAlerts (env : Env) (store : AlertsStore) (bodies : List AlertBody) :
    Except String AlertsStore :=
  if env.insertFails then .error "store error on insert"
  else .ok ⟨store.rows ++ bodies.map insertRow⟩

/-- Execution of DELETE FROM results.alerts WHERE ALERT:ALERT_ID = aid;
raises iff the environment injects a store error. -/
def dbDeleteAlert (env : Env) (store : AlertsStore) (aid : String) :
    Except String AlertsStore :=
  if env.deleteFails then .error "store error on delete"
  else .ok ⟨store.rows.filter (fun r => r.alert.alert_id != aid)⟩

/-- log_alerts(ctx, alerts): inserts the given bodies in one statement,
catching and logging any insert error, so it never raises. -/
def log_alerts (env : Env) (store : AlertsStore) (alerts : List AlertBody) :
    AlertsStore × List Event :=
  if alerts.length != 0 then
    match dbInsertAlerts env store alerts with
    | .ok s1 => (s1, [.printed "Recording alerts.", .inserted alerts])
    | .error _ => (store, [.printed "Recording alerts.",
                           .errorLogged "Failed to log alert"])
  else (store, [.printed "No alerts to log."])

/-- Stand-in for Python's str(alert) used for the EVENT_DATA key (an
opaque rendering; no claim depends on its exact shape). -/
def AlertBody.pyStr (a : AlertBody) : String :=
  String.intercalate ", " [a.alert_id, a.title, a.description, a.severity]

/-- The failure alert body synthesized by log_failure. -/
def failure_alert (env : Env) (alert : AlertBody) (e : String) : AlertBody :=
  { alert_id := env.freshId
    query_id := "db9fa0d114d54b5ca1a195e34fb8752b"
    query_name := "Alert Handler Failure"
    environment := "SnowAlert"
    sources := ["Alerts Table"]
    actor := "Alert Handler"
    object := alert.alert_id
    action := "The Alert Handler failed to create a ticket"
    title := "Alert Handler Failure"
    event_time := env.now
    alert_time := env.now
    description := "The alert with ID '" ++ alert.alert_id ++
      "' failed to create with error: " ++ e
    detector := "Alert Handler"
    event_data := alert.pyStr
    severity := "High"
    handlers := none }

/-- log_failure(ctx, alert, e): synthesizes the failure body, persists it
through log_alerts (which swallows insert errors internally), then deletes
the original row; the surrounding try/except catches a raise of the DELETE
and logs it. -/
def log_failure (env : Env) (store : AlertsStore) (alert : AlertBody)
    (e : String) : AlertsStore × List Event :=
  let fa := failure_alert env alert e
  let step1 := log_alerts env store [fa]
  match dbDeleteAlert env step1.1 alert.alert_id with
  | .ok s2 => (s2, step1.2 ++ [.deleted alert.alert_id])
  | .error _ =>
      (step1.1, step1.2 ++ [.errorLogged "Failed to log alert creation failure"])

/-- Rows kept by the WHERE clause of GET_ALERTS_QUERY:
ticket IS NULL AND suppressed = FALSE (SQL three-valued: a NULL
suppressed column does not satisfy suppressed = FALSE). -/
def pendingFilter (r : AlertRow) : Bool :=
  r.ticket.isNone && (r.suppressed == some false)

/-- Sort key of ORDER BY event_time ASC: ascending timestamps with NULLs
last (Snowflake's default for ASC). -/
def etKey (r : AlertRow) : WithTop Nat :=
  match r.event_time with
  | none => ⊤
  | some n => (n : WithTop Nat)

/-- Comparison used by ORDER BY event_time ASC. -/
def event_time_le (a b : AlertRow) : Prop := etKey a ≤ etKey b

instance : DecidableRel event_time_le :=
  fun a b => inferInstanceAs (Decidable (etKey a ≤ etKey b))

instance : IsTotal AlertRow event_time_le :=
  ⟨fun a b => le_total (etKey a) (etKey b)⟩

instance : IsTrans AlertRow event_time_le :=
  ⟨fun _ _ _ hab hbc => le_trans hab hbc⟩

/-- get_new_alerts(ctx): runs GET_ALERTS_QUERY (filter, order by
event_time ascending, LIMIT 100). The statement is a SELECT, so the
store component is returned unchanged. -/
def get_new_alerts (store : AlertsStore) : List AlertRow × AlertsStore :=
  ((((store.rows.filter pendingFilter).insertionSort event_time_le).take 100),
   store)

/-- The handler list main reads for one fetched alert:
alert_body.get('HANDLERS', ['jira']), i.e. the default applies only when
the key is absent. -/
def handlersOf (row : AlertRow) : List String :=
  row.alert.handlers.getD ["jira"]

/-- Body of the inner for-loop of main for one handler name: only the name
'jira' is recognized; on a handler error the failure is recorded. -/
def handle_one (env : Env) (store : AlertsStore) (row : AlertRow)
    (handler : String) : AlertsStore × List Event :=
  if handler == "jira" then
    match env.handleAlert handler row with
    | none => (store, [.handlerInvoked handler row.alert.alert_id])
    | some r =>
        let res := log_failure env store row.alert r
        (res.1, .handlerInvoked handler row.alert.alert_id :: res.2)
  else (store, [])

/-- The inner for-loop of main over one alert's handler names. -/
def run_handlers (env : Env) (row : AlertRow) :
    List String → AlertsStore → AlertsStore × List Event
  | [], s => (s, [])
  | h :: hs, s =>
      let step := handle_one env s row h
      let rest := run_handlers env row hs step.1
      (rest.1, step.2 ++ rest.2)

/-- Dispatch of one fetched alert: iterate its requested handler names. -/
def dispatch_alert (env : Env) (row : AlertRow) (s : AlertsStore) :
    AlertsStore × List Event :=
  run_handlers env row (handlersOf row) s

/-- The outer for-loop of main over the fetched batch. -/
def run_alerts (env : Env) :
    List AlertRow → AlertsStore → AlertsStore × List Event
  | [], s => (s, [])
  | r :: rs, s =>
      let step := dispatch_alert env r s
      let rest := run_alerts env rs step.1
      (rest.1, step.2 ++ rest.2)

/-- The metric block at the end of main: calls log.metric once iff
CLOUDWATCH_METRICS is truthy, catching and logging a raise. -/
def metric_step (env : Env) : List Event :=
  if env.cloudwatchMetrics then
    if env.metricFails then [.errorLogged "Cloudwatch metric logging failed"]
    else [.metricLogged "Run" "SnowAlert" [("Component", "Alert Handler")] 1]
  else []

/-- Result of one run: final table state, trace, and the number of alerts
the run reported having fetched. -/
structure RunResult where
  store : AlertsStore
  trace : List Event
  count_fetched : Nat
deriving DecidableEq

/-- main(): fetch, dispatch each alert to its handlers, then the metric
block. -/
def main (env : Env) (store : AlertsStore) : RunResult :=
  let fetched := (get_new_alerts store).1
  let s0 := (get_new_alerts store).2
  let body := run_alerts env fetched s0
  { store := body.1
    trace := Event.infoLogged
        ("Found " ++ toString fetched.length ++ " new alerts to handle.")
        :: body.2 ++ metric_step env
    count_fetched := fetched.length }

/-- Python truthiness of os.environ.get('JIRA_USER'): None and the empty
string are falsy. -/
def pyTruthy (o : Option String) : Bool :=
  match o with
  | none => false
  | some s => s != ""

/-- The if __name__ == "__main__" guard: run main() only when JIRA_USER
is present and non-empty; otherwise do nothing. -/
def entry_point (jiraUser : Option String) (env : Env) (store : AlertsStore) :
    AlertsStore × List Event :=
  if pyTruthy jiraUser then ((main env store).store, (main env store).trace)
  else (store, [])

/-- Projection of a trace to its handler invocations, as
(handler name, alert id) pairs. -/
def invokedEvents (t : List Event) : List (String × String) :=
  t.filterMap (fun e =>
    match e with
    | .handlerInvoked h a => some (h, a)
    | _ => none)

/-- Projection of a trace to the store writes (INSERT and DELETE
statements) it contains. -/
def dbWriteEvents (t : List Event) : List Event :=
  t.filter (fun e =>
    match e with
    | .inserted _ => true
    | .deleted _ => true
    | _ => false)

/-- The handler invocations one alert's dispatch is expected to produce:
one per requested name recognized by the registry. -/
def invokedOf (row : AlertRow) : List (String × String) :=
  ((handlersOf row).filter (fun h => h == "jira")).map
    (fun h => (h, row.alert.alert_id))

/-- The handler invocations a whole fetched batch is expected to produce,
in batch order. -/
def invokedAll : List AlertRow → List (String × String)
  | [] => []
  | r :: rs => invokedOf r ++ invokedAll rs

/-- Number of times the trace reaches the metric emission call (whether it
succeeds or raises and is logged). -/
def metricAttempts (t : List Event) : Nat :=
  t.countP (fun e =>
    match e with
    | .metricLogged _ _ _ _ => true
    | .errorLogged m => m == "Cloudwatch metric logging failed"
    | _ => false)

/-! Concrete data used to exercise the model on closed inputs. -/

/-- Builder for a minimal alert body with a given id and HANDLERS value. -/
def mkBody (aid : String) (hs : Option (List String)) : AlertBody :=
  { alert_id := aid
    query_id := "q"
    query_name := "qn"
    environment := "SnowAlert"
    sources := []
    actor := "actor"
    object := "obj"
    action := "act"
    title := "title"
    event_time := "et"
    alert_time := "at"
    description := "desc"
    detector := "det"
    event_data := "ed"
    severity := "Low"
    handlers := hs }

/-- Builder for a pending row (no ticket, not suppressed). -/
def mkRow (aid : String) (hs : Option (List String)) (et : Option Nat) :
    AlertRow :=
  { alert := mkBody aid hs
    alert_time := "at"
    event_time := et
    ticket := none
    correlation_id := none
    suppressed := some false
    suppression_rule := none
    counter := 1 }

/-- Benign environment: no injected store errors, metrics off, the jira
handler succeeds. -/
def envOk : Env :=
  { insertFails := false
    deleteFails := false
    metricFails := false
    cloudwatchMetrics := false
    now := "2023-01-01 00:00:00"
    freshId := "feedfacefeedfacefeedfacefeedface"
    handleAlert := fun _ _ => none }

/-- Environment of the C1 scenario: the jira handler fails with
"auth expired" and the INSERT of the failure record raises. -/
def envC1 : Env :=
  { envOk with insertFails := true, handleAlert := fun _ _ => some "auth expired" }

/-- Environment where both the INSERT and the DELETE raise. -/
def envBothFail : Env := { envOk with insertFails := true, deleteFails := true }

/-- Environment with CloudWatch metrics enabled. -/
def envMetrics : Env := { envOk with cloudwatchMetrics := true }

/-- Environment where the jira handler fails but the store works. -/
def envHandlerFails : Env :=
  { envOk with handleAlert := fun _ _ => some "auth expired" }

/-- The store of the C1 scenario: a single pending alert a1 asking for the
jira handler. -/
def storeC1 : AlertsStore := ⟨[mkRow "a1" (some ["jira"]) (some 1)]⟩

/-- Store with two pending rows and one suppressed row, for the fetch
witness. -/
def storeC2 : AlertsStore :=
  ⟨[mkRow "b2" (some ["jira"]) (some 5),
    mkRow "a2" (some ["jira"]) (some 3),
    { mkRow "c2" (some ["jira"]) (some 1) with suppressed := some true }]⟩

/-- Single pending alert a5 with an explicitly empty HANDLERS list. -/
def storeC5 : AlertsStore := ⟨[mkRow "a5" (some []) (some 1)]⟩

/-- Row with the HANDLERS key absent. -/
def rowC5 : AlertRow := mkRow "b5" none (some 1)

/-- Single pending alert a6 requesting the jira handler. -/
def storeC6 : AlertsStore := ⟨[mkRow "a6" (some ["jira"]) (some 1)]⟩

/-- Row requesting only a handler name absent from the registry. -/
def rowC8 : AlertRow := mkRow "a8" (some ["slack"]) (some 1)

/-- Empty alerts table. -/
def storeEmpty : AlertsStore := ⟨[]⟩

/-- Generic one-row pending store. -/
def storeC10 : AlertsStore := ⟨[mkRow "a10" (some ["jira"]) (some 2)]⟩

/-- Row of storeC10. -/
def rowC10 : AlertRow := mkRow "a10" (some ["jira"]) (some 2)

/-- Failed alert body used by the log_failure witnesses. -/
def bodyC3 : AlertBody := mkBody "a3" (some ["jira"])

/-- Store holding the row of bodyC3. -/
def storeC3 : AlertsStore := ⟨[mkRow "a3" (some ["jira"]) (some 1)]⟩

/-! Helper lemmas: explicit equations for log_failure under the four
store-error combinations, and the invocation-trace machinery. -/

/-- Equation for log_failure when both the insert and the delete succeed. -/
theorem lf_eq_ok_ok (env : Env) (s : AlertsStore) (a : AlertBody) (e : String)
    (hI : env.insertFails = false) (hD : env.deleteFails = false) :
    log_failure env s a e =
      (⟨(s.rows ++ [insertRow (failure_alert env a e)]).filter
          (fun r => r.alert.alert_id != a.alert_id)⟩,
       [.printed "Recording alerts.", .inserted [failure_alert env a e],
        .deleted a.alert_id]) := by
  simp [log_failure, log_alerts, dbInsertAlerts, dbDeleteAlert, hI, hD]

/-- Equation for log_failure when the insert raises (the error is swallowed
inside log_alerts) and the delete succeeds: the delete still runs. -/
theorem lf_eq_insfail_delok (env : Env) (s : AlertsStore) (a : AlertBody)
    (e : String) (hI : env.insertFails = true) (hD : env.deleteFails = false) :
    log_failure env s a e =
      (⟨s.rows.filter (fun r => r.alert.alert_id != a.alert_id)⟩,
       [.printed "Recording alerts.", .errorLogged "Failed to log alert",
        .deleted a.alert_id]) := by
  simp [log_failure, log_alerts, dbInsertAlerts, dbDeleteAlert, hI, hD]

/-- Equation for log_failure when the insert succeeds and the delete
raises: the failure record is stored, the original row stays. -/
theorem lf_eq_insok_delfail (env : Env) (s : AlertsStore) (a : AlertBody)
    (e : String) (hI : env.insertFails = false) (hD : env.deleteFails = true) :
    log_failure env s a e =
      (⟨s.rows ++ [insertRow (failure_alert env a e)]⟩,
       [.printed "Recording alerts.", .inserted [failure_alert env a e],
        .errorLogged "Failed to log alert creation failure"]) := by
  simp [log_failure, log_alerts, dbInsertAlerts, dbDeleteAlert, hI, hD]

/-- Equation for log_failure when both store calls raise: the table is
untouched and both errors are logged. -/
theorem lf_eq_both_fail (env : Env) (s : AlertsStore) (a : AlertBody)
    (e : String) (hI : env.insertFails = true) (hD : env.deleteFails = true) :
    log_failure env s a e =
      (s, [.printed "Recording alerts.", .errorLogged "Failed to log alert",
           .errorLogged "Failed to log alert creation failure"]) := by
  simp [log_failure, log_alerts, dbInsertAlerts, dbDeleteAlert, hI, hD]

/-- invokedEvents distributes over trace concatenation. -/
theorem invokedEvents_append (t1 t2 : List Event) :
    invokedEvents (t1 ++ t2) = invokedEvents t1 ++ invokedEvents t2 := by
  simp [invokedEvents, List.filterMap_append]

/-- log_failure performs no handler invocations. -/
theorem invoked_log_failure (env : Env) (s : AlertsStore) (a : AlertBody)
    (e : String) : invokedEvents (log_failure env s a e).2 = [] := by
  cases hI : env.insertFails <;> cases hD : env.deleteFails
  · rw [lf_eq_ok_ok env s a e hI hD]; simp [invokedEvents]
  · rw [lf_eq_insok_delfail env s a e hI hD]; simp [invokedEvents]
  · rw [lf_eq_insfail_delok env s a e hI hD]; simp [invokedEvents]
  · rw [lf_eq_both_fail env s a e hI hD]; simp [invokedEvents]

/-- The loop body for one handler name invokes it exactly when the name is
the registered one. -/
theorem invoked_handle_one (env : Env) (s : AlertsStore) (row : AlertRow)
    (h : String) :
    invokedEvents (handle_one env s row h).2 =
      if h == "jira" then [(h, row.alert.alert_id)] else [] := by
  cases hj : (h == "jira") with
  | false => simp [handle_one, hj, invokedEvents]
  | true =>
      cases hr : env.handleAlert h row with
      | none => simp [handle_one, hj, hr, invokedEvents]
      | some er =>
          have h2 : (handle_one env s row h).2
              = Event.handlerInvoked h row.alert.alert_id ::
                  (log_failure env s row.alert er).2 := by
            simp [handle_one, hj, hr]
          have h3 : invokedEvents
              (Event.handlerInvoked h row.alert.alert_id ::
                (log_failure env s row.alert er).2)
              = (h, row.alert.alert_id) ::
                  invokedEvents (log_failure env s row.alert er).2 := rfl
          rw [h2, h3, invoked_log_failure]
          simp [hj]

/-- Invocations of one alert's handler loop, for any starting store. -/
theorem invoked_run_handlers (env : Env) (row : AlertRow) (hs : List String) :
    ∀ s, invokedEvents (run_handlers env row hs s).2 =
      (hs.filter (fun h => h == "jira")).map (fun h => (h, row.alert.alert_id)) := by
  induction hs with
  | nil => intro s; simp [run_handlers, invokedEvents]
  | cons h hs ih =>
      intro s
      simp only [run_handlers]
      rw [invokedEvents_append, invoked_handle_one, ih]
      cases hj : (h == "jira") <;> simp [hj, List.filter_cons]

/-- Invocations of one alert's dispatch. -/
theorem invoked_dispatch (env : Env) (row : AlertRow) (s : AlertsStore) :
    invokedEvents (dispatch_alert env row s).2 = invokedOf row := by
  simp only [dispatch_alert]
  rw [invoked_run_handlers]
  rfl

/-- Invocations of the whole batch loop. -/
theorem invoked_run_alerts (env : Env) (rows : List AlertRow) :
    ∀ s, invokedEvents (run_alerts env rows s).2 = invokedAll rows := by
  induction rows with
  | nil => intro s; simp [run_alerts, invokedEvents, invokedAll]
  | cons r rs ih =>
      intro s
      simp only [run_alerts]
      rw [invokedEvents_append, invoked_dispatch, ih]
      simp [invokedAll]

/-- The metric block performs no handler invocations. -/
theorem invoked_metric_step (env : Env) :
    invokedEvents (metric_step env) = [] := by
  cases hc : env.cloudwatchMetrics <;> cases hm : env.metricFails <;>
    simp [metric_step, hc, hm, invokedEvents]

/-- The invocations of a whole run are exactly the canonical ones of the
fetched batch. -/
theorem invoked_main (env : Env) (store : AlertsStore) :
    invokedEvents (main env store).trace = invokedAll (get_new_alerts store).1 := by
  simp only [main]
  have h1 : ∀ (m : String) (t : List Event),
      invokedEvents (Event.infoLogged m :: t) = invokedEvents t := fun m t => rfl
  rw [invokedEvents_append, h1, invoked_run_alerts, invoked_metric_step,
    List.append_nil]

/-- Counting an invocation event in a trace equals counting the pair in
the trace's invocation projection. -/
theorem count_handlerInvoked (t : List Event) (h a : String) :
    t.count (Event.handlerInvoked h a) = (invokedEvents t).count (h, a) := by
  induction t with
  | nil => rfl
  | cons e t ih =>
      cases e <;> simp [invokedEvents, List.count_cons, ih]

/-- Counting the pair ("jira", aid) in the canonical invocation list of a
handler-name list equals counting "jira" in that list. -/
theorem count_jira_pairs (aid : String) (hs : List String) :
    ((hs.filter (fun h => h == "jira")).map (fun h => (h, aid))).count
      ("jira", aid) = hs.count "jira" := by
  induction hs with
  | nil => rfl
  | cons h hs ih =>
      cases hj : (h == "jira") with
      | false => simp [List.filter_cons, hj, List.count_cons, ih]
      | true =>
          have hj2 : h = "jira" := by simpa using hj
          subst hj2
          simp [List.filter_cons, List.count_cons, ih]

/-- Every pair produced by one alert's dispatch carries that alert's id. -/
theorem snd_of_mem_invokedOf {p : String × String} {row : AlertRow}
    (hp : p ∈ invokedOf row) : p.2 = row.alert.alert_id := by
  simp only [invokedOf, List.mem_map] at hp
  obtain ⟨x, _, rfl⟩ := hp
  rfl

/-- A dispatch of a different alert contributes no ("jira", aid) pair. -/
theorem count_invokedOf_ne (row : AlertRow) (aid : String)
    (hne : aid ≠ row.alert.alert_id) :
    (invokedOf row).count ("jira", aid) = 0 := by
  rw [List.count_eq_zero]
  intro hmem
  exact hne (snd_of_mem_invokedOf hmem)

/-- A batch not containing an alert id contributes no pair for it. -/
theorem count_invokedAll_zero (aid : String) :
    ∀ rows : List AlertRow, aid ∉ rows.map (fun r => r.alert.alert_id) →
      (invokedAll rows).count ("jira", aid) = 0 := by
  intro rows
  induction rows with
  | nil => intro _; rfl
  | cons r rs ih =>
      intro hnot
      simp only [List.map_cons, List.mem_cons, not_or] at hnot
      obtain ⟨h1, h2⟩ := hnot
      simp only [invokedAll]
      rw [List.count_append, count_invokedOf_ne r aid h1, ih h2]

/-- In a batch with pairwise-distinct alert ids, an alert with
duplicate-free handler names that requests "jira" produces exactly one
("jira", id) pair. -/
theorem count_invokedAll_one (row : AlertRow)
    (hnd : (handlersOf row).Nodup) (hj : "jira" ∈ handlersOf row) :
    ∀ rows : List AlertRow, row ∈ rows →
      (rows.map (fun r => r.alert.alert_id)).Nodup →
      (invokedAll rows).count ("jira", row.alert.alert_id) = 1 := by
  intro rows
  induction rows with
  | nil => intro h _; cases h
  | cons r rs ih =>
      intro hrow hids
      simp only [List.map_cons, List.nodup_cons] at hids
      obtain ⟨hhead, htail⟩ := hids
      simp only [invokedAll]
      rw [List.count_append]
      rcases List.mem_cons.mp hrow with heq | hmem
      · subst heq
        rw [count_invokedAll_zero _ rs hhead]
        have h1 : (invokedOf row).count ("jira", row.alert.alert_id)
            = (handlersOf row).count "jira" := count_jira_pairs _ _
        rw [h1, List.count_eq_one_of_mem hnd hj]
      · have hne : row.alert.alert_id ≠ r.alert.alert_id := by
          intro he
          exact hhead (he ▸ List.mem_map_of_mem _ hmem)
        rw [count_invokedOf_ne r _ hne, ih hmem htail]

/-- Every row present after log_failure is either an original row or the
synthesized failure record. -/
theorem rows_log_failure (env : Env) (s : AlertsStore) (a : AlertBody)
    (e : String) :
    ∀ r ∈ (log_failure env s a e).1.rows,
      r ∈ s.rows ∨ r = insertRow (failure_alert env a e) := by
  cases hI : env.insertFails <;> cases hD : env.deleteFails
  · rw [lf_eq_ok_ok env s a e hI hD]
    intro r hr
    rcases List.mem_append.mp (List.mem_filter.mp hr).1 with h1 | h1
    · exact .inl h1
    · exact .inr (List.mem_singleton.mp h1)
  · rw [lf_eq_insok_delfail env s a e hI hD]
    intro r hr
    rcases List.mem_append.mp hr with h1 | h1
    · exact .inl h1
    · exact .inr (List.mem_singleton.mp h1)
  · rw [lf_eq_insfail_delok env s a e hI hD]
    intro r hr
    exact .inl (List.mem_filter.mp hr).1
  · rw [lf_eq_both_fail env s a e hI hD]
    intro r hr
    exact .inl hr

/-- Every row present after one handler step is an original row or a
synthesized failure record. -/
theorem rows_handle_one (env : Env) (s : AlertsStore) (row : AlertRow)
    (h : String) :
    ∀ r ∈ (handle_one env s row h).1.rows,
      r ∈ s.rows ∨ ∃ a e, r = insertRow (failure_alert env a e) := by
  cases hj : (h == "jira") with
  | false =>
      intro r hr
      simp only [handle_one, hj] at hr
      exact .inl (by simpa using hr)
  | true =>
      cases hcall : env.handleAlert h row with
      | none =>
          intro r hr
          simp only [handle_one, hj, hcall] at hr
          exact .inl (by simpa using hr)
      | some er =>
          intro r hr
          simp only [handle_one, hj, hcall] at hr
          rcases rows_log_failure env s row.alert er r (by simpa using hr) with h1 | h1
          · exact .inl h1
          · exact .inr ⟨row.alert, er, h1⟩

/-- Every row present after one alert's handler loop is an original row or
a synthesized failure record, from any starting store. -/
theorem rows_run_handlers (env : Env) (row : AlertRow) (hs : List String) :
    ∀ s, ∀ r ∈ (run_handlers env row hs s).1.rows,
      r ∈ s.rows ∨ ∃ a e, r = insertRow (failure_alert env a e) := by
  induction hs with
  | nil => intro s r hr; exact .inl hr
  | cons h hs ih =>
      intro s r hr
      simp only [run_handlers] at hr
      rcases ih _ r hr with h1 | h1
      · exact rows_handle_one env s row h r h1
      · exact .inr h1

/-- Every row present after the whole batch loop is an original row or a
synthesized failure record. -/
theorem rows_run_alerts (env : Env) (rows : List AlertRow) :
    ∀ s, ∀ r ∈ (run_alerts env rows s).1.rows,
      r ∈ s.rows ∨ ∃ a e, r = insertRow (failure_alert env a e) := by
  induction rows with
  | nil => intro s r hr; exact .inl hr
  | cons rr rs ih =>
      intro s r hr
      simp only [run_alerts] at hr
      rcases ih _ r hr with h1 | h1
      · exact rows_run_handlers env rr (handlersOf rr) s r h1
      · exact .inr h1

/-- dbWriteEvents distributes over trace concatenation. -/
theorem dbWriteEvents_append (t1 t2 : List Event) :
    dbWriteEvents (t1 ++ t2) = dbWriteEvents t1 ++ dbWriteEvents t2 := by
  simp [dbWriteEvents, List.filter_append]

/-- One handler step on a successful handler leaves the store unchanged
and records at most the invocation. -/
theorem handle_one_success (env : Env) (s : AlertsStore) (row : AlertRow)
    (h : String) (hh : env.handleAlert h row = none) :
    handle_one env s row h =
      (s, if h == "jira" then [.handlerInvoked h row.alert.alert_id] else []) := by
  cases hj : (h == "jira") <;> simp [handle_one, hj, hh]

/-- One alert's handler loop on all-successful handlers leaves the store
unchanged and performs no store write. -/
theorem run_handlers_success (env : Env) (row : AlertRow) (hs : List String) :
    ∀ s, (∀ h ∈ hs, env.handleAlert h row = none) →
      (run_handlers env row hs s).1 = s ∧
      ∀ ev ∈ (run_handlers env row hs s).2,
        ∃ h2, ev = Event.handlerInvoked h2 row.alert.alert_id := by
  induction hs with
  | nil =>
      intro s _
      exact ⟨rfl, by intro ev hev; cases hev⟩
  | cons h hs ih =>
      intro s hall
      have hh : env.handleAlert h row = none := hall h (List.mem_cons_self _ _)
      have htl : ∀ h2 ∈ hs, env.handleAlert h2 row = none :=
        fun h2 hm => hall h2 (List.mem_cons_of_mem _ hm)
      obtain ⟨ih1, ih2⟩ := ih s htl
      constructor
      · show (run_handlers env row hs (handle_one env s row h).1).1 = s
        rw [handle_one_success env s row h hh]
        exact ih1
      · intro ev hev
        simp only [run_handlers] at hev
        rw [handle_one_success env s row h hh] at hev
        cases hj : (h == "jira") with
        | false =>
            simp [hj] at hev
            exact ih2 ev hev
        | true =>
            simp [hj] at hev
            rcases hev with h1 | h1
            · exact ⟨h, h1⟩
            · exact ih2 ev h1

/-- Dispatch of an alert all of whose requested handlers succeed leaves
the store unchanged and performs no store write. -/
theorem dispatch_success (env : Env) (row : AlertRow) (s : AlertsStore)
    (hall : ∀ h ∈ handlersOf row, env.handleAlert h row = none) :
    (dispatch_alert env row s).1 = s ∧
    dbWriteEvents (dispatch_alert env row s).2 = [] := by
  obtain ⟨h1, h2⟩ := run_handlers_success env row (handlersOf row) s hall
  refine ⟨h1, ?_⟩
  simp only [dbWriteEvents]
  rw [List.filter_eq_nil_iff]
  intro ev hev
  obtain ⟨h3, rfl⟩ := h2 ev hev
  simp

/-! The claims. -/

/-- Claim C1 (code bug): the claim states that when the INSERT of the
synthesized failure record fails, the DELETE must not run and the original
row stays fetchable. The code contradicts this: log_alerts catches the
insert exception internally, so log_failure's try block never sees it and
the DELETE still executes. In the concrete failing scenario (pending alert
a1 whose jira handler fails with "auth expired", insert raising), the run
deletes a1's row: the table ends empty, a1 is no longer fetchable, the only
store write was the DELETE, and the insert error was merely logged. -/
theorem insert_failure_still_deletes :
    (main envC1 storeC1).store.rows = [] ∧
    (get_new_alerts (main envC1 storeC1).store).1 = [] ∧
    dbWriteEvents (main envC1 storeC1).trace = [Event.deleted "a1"] ∧
    Event.errorLogged "Failed to log alert" ∈ (main envC1 storeC1).trace := by
  refine ⟨by decide, by decide, by decide, by decide⟩

/-- Claim C2: for every state of the alerts store, one fetch returns only
rows with a NULL ticket and suppressed = false, sorted by ascending
event_time, at most 100 of them; when at most 100 rows are pending the
result is exactly (a permutation of) the pending rows; and the fetch
leaves the store unchanged. -/
theorem fetch_pending_spec (s : AlertsStore) :
    (∀ r ∈ (get_new_alerts s).1, r.ticket = none ∧ r.suppressed = some false) ∧
    List.Sorted event_time_le (get_new_alerts s).1 ∧
    (get_new_alerts s).1.length ≤ 100 ∧
    ((s.rows.filter pendingFilter).length ≤ 100 →
      List.Perm (get_new_alerts s).1 (s.rows.filter pendingFilter)) ∧
    (get_new_alerts s).2 = s := by
  refine ⟨?_, ?_, ?_, ?_, rfl⟩
  · intro r hr
    simp only [get_new_alerts] at hr
    have h1 : r ∈ (s.rows.filter pendingFilter).insertionSort event_time_le :=
      List.mem_of_mem_take hr
    have h2 : r ∈ s.rows.filter pendingFilter :=
      ((List.perm_insertionSort event_time_le _).mem_iff).mp h1
    have h3 := (List.mem_filter.mp h2).2
    simp only [pendingFilter, Bool.and_eq_true, Option.isNone_iff_eq_none,
      beq_iff_eq] at h3
    exact h3
  · show List.Sorted event_time_le
      (((s.rows.filter pendingFilter).insertionSort event_time_le).take 100)
    exact List.Pairwise.sublist (List.take_sublist _ _)
      (List.sorted_insertionSort event_time_le _)
  · show (((s.rows.filter pendingFilter).insertionSort event_time_le).take
      100).length ≤ 100
    rw [List.length_take]
    exact min_le_left _ _
  · intro hle
    have hlen : ((s.rows.filter pendingFilter).insertionSort
        event_time_le).length ≤ 100 := by
      rw [(List.perm_insertionSort event_time_le _).length_eq]
      exact hle
    show List.Perm
      (((s.rows.filter pendingFilter).insertionSort event_time_le).take 100)
      (s.rows.filter pendingFilter)
    rw [List.take_of_length_le hlen]
    exact List.perm_insertionSort event_time_le _

/-- Witness for C2 on a concrete store with two pending rows and one
suppressed row. -/
theorem fetch_pending_spec_witness :
    (storeC2.rows.filter pendingFilter).length ≤ 100 ∧
    List.Perm (get_new_alerts storeC2).1 (storeC2.rows.filter pendingFilter) :=
  ⟨by decide, (fetch_pending_spec storeC2).2.2.2.1 (by decide)⟩

/-- Claim C3: log_failure synthesizes exactly one record whose ALERT_ID is
the freshly generated id (distinct from the failed alert's, by freshness
of the uuid), whose OBJECT is the failed alert's id, whose TITLE is
"Alert Handler Failure", whose DESCRIPTION contains the failed alert's id
and the stringified error as substrings, whose EVENT_TIME and ALERT_TIME
are the current instant, whose SEVERITY is "High", and persists it as a
single-row batch through the shared log_alerts insertion path. -/
theorem log_failure_synthesis (env : Env) (store : AlertsStore)
    (alert : AlertBody) (e : String)
    (hins : env.insertFails = false) (hdel : env.deleteFails = false)
    (hfresh : env.freshId ≠ alert.alert_id) :
    (failure_alert env alert e).alert_id = env.freshId ∧
    (failure_alert env alert e).alert_id ≠ alert.alert_id ∧
    (failure_alert env alert e).object = alert.alert_id ∧
    (failure_alert env alert e).title = "Alert Handler Failure" ∧
    (∃ p q, (failure_alert env alert e).description = p ++ alert.alert_id ++ q) ∧
    (∃ p q, (failure_alert env alert e).description = p ++ e ++ q) ∧
    (failure_alert env alert e).event_time = env.now ∧
    (failure_alert env alert e).alert_time = env.now ∧
    (failure_alert env alert e).severity = "High" ∧
    Event.inserted [failure_alert env alert e] ∈ (log_failure env store alert e).2 ∧
    (log_failure env store alert e).1.rows =
      store.rows.filter (fun r => r.alert.alert_id != alert.alert_id)
        ++ [insertRow (failure_alert env alert e)] := by
  refine ⟨rfl, hfresh, rfl, rfl, ?_, ?_, rfl, rfl, rfl, ?_, ?_⟩
  · exact ⟨"The alert with ID '", "' failed to create with error: " ++ e, by
      simp [failure_alert, String.append_assoc]⟩
  · refine ⟨"The alert with ID '" ++ alert.alert_id ++
      "' failed to create with error: ", "", ?_⟩
    simp [failure_alert, String.append_assoc, String.append_empty]
  · rw [lf_eq_ok_ok env store alert e hins hdel]
    simp
  · rw [lf_eq_ok_ok env store alert e hins hdel]
    simp only [List.filter_append]
    simp [insertRow, failure_alert, List.filter_cons, bne_iff_ne, hfresh]

/-- Witness for C3 at a concrete failed alert a3 and error "boom". -/
theorem log_failure_synthesis_witness :
    (failure_alert envOk bodyC3 "boom").object = "a3" ∧
    (failure_alert envOk bodyC3 "boom").severity = "High" ∧
    Event.inserted [failure_alert envOk bodyC3 "boom"] ∈
      (log_failure envOk storeC3 bodyC3 "boom").2 := by
  have h := log_failure_synthesis envOk storeC3 bodyC3 "boom" rfl rfl (by decide)
  exact ⟨h.2.2.1, h.2.2.2.2.2.2.2.2.1, h.2.2.2.2.2.2.2.2.2.1⟩

/-- Claim C4: for every alert record and error value, log_failure returns
normally (it is a total function back to a state/trace pair) whatever
store errors occur inside it, and each internal error is reported in the
trace: an insert failure logs "Failed to log alert", a delete failure logs
"Failed to log alert creation failure". -/
theorem log_failure_no_raise (env : Env) (store : AlertsStore)
    (alert : AlertBody) (e : String) :
    ∃ s t, log_failure env store alert e = (s, t) ∧
      (env.insertFails = true → Event.errorLogged "Failed to log alert" ∈ t) ∧
      (env.deleteFails = true →
        Event.errorLogged "Failed to log alert creation failure" ∈ t) := by
  cases hI : env.insertFails <;> cases hD : env.deleteFails
  · exact ⟨_, _, lf_eq_ok_ok env store alert e hI hD,
      by simp [hI], by simp [hD]⟩
  · exact ⟨_, _, lf_eq_insok_delfail env store alert e hI hD,
      by simp [hI], by intro _; simp⟩
  · exact ⟨_, _, lf_eq_insfail_delok env store alert e hI hD,
      by intro _; simp, by simp [hD]⟩
  · exact ⟨_, _, lf_eq_both_fail env store alert e hI hD,
      by intro _; simp, by intro _; simp⟩

/-- Witness for C4 in the environment where both store calls raise. -/
theorem log_failure_no_raise_witness :
    ∃ s t, log_failure envBothFail storeC3 bodyC3 "boom" = (s, t) ∧
      Event.errorLogged "Failed to log alert" ∈ t ∧
      Event.errorLogged "Failed to log alert creation failure" ∈ t := by
  obtain ⟨s, t, heq, h1, h2⟩ :=
    log_failure_no_raise envBothFail storeC3 bodyC3 "boom"
  exact ⟨s, t, heq, h1 rfl, h2 rfl⟩

/-- Claim C5 counterexample: for the pending alert a5 whose HANDLERS field
is present but an empty list, the dispatcher's handler list is empty (not
the built-in default) and a run invokes no handler at all, contradicting
the claim that the built-in handler is invoked once in this case. -/
theorem handlers_empty_no_invocation :
    handlersOf (mkRow "a5" (some []) (some 1)) = [] ∧
    (main envOk storeC5).trace.count (Event.handlerInvoked "jira" "a5") = 0 :=
  ⟨rfl, by decide⟩

/-- Claim C5 (amended): the dispatcher substitutes the built-in list
["jira"] only when the HANDLERS field is absent, and then the built-in
handler is invoked exactly once for that alert; when HANDLERS is present
but empty, the dispatcher uses the empty list and the alert's dispatch
does nothing. -/
theorem handlers_default_absent_only (env : Env) (row : AlertRow)
    (s : AlertsStore) :
    (row.alert.handlers = none →
      handlersOf row = ["jira"] ∧
      invokedEvents (dispatch_alert env row s).2 = [("jira", row.alert.alert_id)]) ∧
    (row.alert.handlers = some [] →
      handlersOf row = [] ∧ dispatch_alert env row s = (s, [])) := by
  constructor
  · intro hnone
    have hh : handlersOf row = ["jira"] := by simp [handlersOf, hnone]
    refine ⟨hh, ?_⟩
    rw [invoked_dispatch]
    simp [invokedOf, hh]
  · intro hemp
    have hh : handlersOf row = [] := by simp [handlersOf, hemp]
    exact ⟨hh, by simp only [dispatch_alert, hh, run_handlers]⟩

/-- Witness for the amended C5: with HANDLERS absent the jira handler is
invoked once; with HANDLERS an explicit empty list dispatch is a no-op. -/
theorem handlers_default_absent_only_witness :
    invokedEvents (dispatch_alert envOk rowC5 storeEmpty).2 = [("jira", "b5")] ∧
    dispatch_alert envOk (mkRow "a5" (some []) (some 1)) storeC5 = (storeC5, []) :=
  ⟨((handlers_default_absent_only envOk rowC5 storeEmpty).1 rfl).2,
   ((handlers_default_absent_only envOk (mkRow "a5" (some []) (some 1))
      storeC5).2 rfl).2⟩

/-- Claim C6: within one run, if the fetched alerts have pairwise-distinct
ids and each alert's requested handler list is duplicate-free, then every
requested handler name known to the registry is invoked exactly once for
that alert. -/
theorem dispatch_exactly_once (env : Env) (store : AlertsStore)
    (hids : (((get_new_alerts store).1).map (fun r => r.alert.alert_id)).Nodup)
    (hnd : ∀ r ∈ (get_new_alerts store).1, (handlersOf r).Nodup) :
    ∀ r ∈ (get_new_alerts store).1, ∀ h ∈ handlersOf r, h = "jira" →
      (main env store).trace.count
        (Event.handlerInvoked h r.alert.alert_id) = 1 := by
  intro r hr h hh hje
  subst hje
  rw [count_handlerInvoked, invoked_main]
  exact count_invokedAll_one r (hnd r hr) hh _ hr hids

/-- Witness for C6 on a store with one pending alert requesting jira. -/
theorem dispatch_exactly_once_witness :
    (main envOk storeC6).trace.count (Event.handlerInvoked "jira" "a6") = 1 := by
  have h := dispatch_exactly_once envOk storeC6 (by decide) (by decide)
    (mkRow "a6" (some ["jira"]) (some 1)) (by decide) "jira" (by decide) rfl
  exact h

/-- Claim C7: the process entry point runs main exactly when JIRA_USER is
present and non-empty; when it is absent (or empty, which Python treats as
falsy) the process touches nothing: the store is unchanged and the trace
is empty, so no fetch, no handler invocation and no store write happen. -/
theorem entry_point_guard (ju : Option String) (env : Env)
    (store : AlertsStore) :
    ((∃ s, ju = some s ∧ s ≠ "") →
      entry_point ju env store = ((main env store).store, (main env store).trace)) ∧
    (ju = none → entry_point ju env store = (store, [])) ∧
    (ju = some "" → entry_point ju env store = (store, [])) := by
  refine ⟨?_, ?_, ?_⟩
  · rintro ⟨s, rfl, hs⟩
    simp [entry_point, pyTruthy, hs]
  · rintro rfl
    simp [entry_point, pyTruthy]
  · rintro rfl
    simp [entry_point, pyTruthy]

/-- Witness for C7: a present non-empty credential runs main; an absent
one does nothing. -/
theorem entry_point_guard_witness :
    entry_point (some "ju") envOk storeC1 =
      ((main envOk storeC1).store, (main envOk storeC1).trace) ∧
    entry_point none envOk storeC1 = (storeC1, []) :=
  ⟨(entry_point_guard (some "ju") envOk storeC1).1 ⟨"ju", rfl, by decide⟩,
   (entry_point_guard none envOk storeC1).2.1 rfl⟩

/-- Claim C8: an unrecognized handler name is a no-op success: the loop
body for any name other than "jira" returns normally with the store
unchanged and an empty trace (no invocation, no store write), and an alert
requesting only unknown names dispatches to exactly that no-op. -/
theorem unknown_handler_noop (env : Env) (s : AlertsStore) (row : AlertRow)
    (h : String) (hne : h ≠ "jira") :
    handle_one env s row h = (s, []) ∧
    ((∀ h2 ∈ handlersOf row, h2 ≠ "jira") →
      dispatch_alert env row s = (s, [])) := by
  constructor
  · simp [handle_one, hne]
  · intro hall
    suffices hgen : ∀ (hs : List String) (st : AlertsStore),
        (∀ h2 ∈ hs, h2 ≠ "jira") → run_handlers env row hs st = (st, []) from
      hgen _ s hall
    intro hs
    induction hs with
    | nil => intro st _; rfl
    | cons hh hs ih =>
        intro st hall2
        have h1 : handle_one env st row hh = (st, []) := by
          simp [handle_one, hall2 hh (List.mem_cons_self _ _)]
        have h2 := ih st (fun x hx => hall2 x (List.mem_cons_of_mem _ hx))
        simp [run_handlers, h1, h2]

/-- Witness for C8 with the unknown handler name "slack". -/
theorem unknown_handler_noop_witness :
    handle_one envOk storeEmpty rowC8 "slack" = (storeEmpty, []) ∧
    dispatch_alert envOk rowC8 storeEmpty = (storeEmpty, []) :=
  ⟨(unknown_handler_noop envOk storeEmpty rowC8 "slack" (by decide)).1,
   (unknown_handler_noop envOk storeEmpty rowC8 "slack" (by decide)).2
     (by decide)⟩

/-- Claim C9: with zero pending alerts a run reports count_fetched = 0,
issues no INSERT and no DELETE, and reaches the optional metric emission
exactly once when the CLOUDWATCH_METRICS flag is set (and not at all when
it is off). -/
theorem run_empty_batch (env : Env) (store : AlertsStore)
    (h : store.rows.filter pendingFilter = []) :
    (main env store).count_fetched = 0 ∧
    dbWriteEvents (main env store).trace = [] ∧
    metricAttempts (main env store).trace =
      (if env.cloudwatchMetrics then 1 else 0) := by
  have hfetch : (get_new_alerts store).1 = [] := by
    simp [get_new_alerts, h]
  refine ⟨?_, ?_, ?_⟩
  · simp [main, hfetch]
  · cases hc : env.cloudwatchMetrics <;> cases hm : env.metricFails <;>
      simp [main, hfetch, run_alerts, metric_step, dbWriteEvents, hc, hm]
  · cases hc : env.cloudwatchMetrics <;> cases hm : env.metricFails <;>
      simp [main, hfetch, run_alerts, metric_step, metricAttempts, hc, hm]

/-- Witness for C9 on the empty store with metrics enabled. -/
theorem run_empty_batch_witness :
    (main envMetrics storeEmpty).count_fetched = 0 ∧
    dbWriteEvents (main envMetrics storeEmpty).trace = [] ∧
    metricAttempts (main envMetrics storeEmpty).trace = 1 := by
  obtain ⟨h1, h2, h3⟩ := run_empty_batch envMetrics storeEmpty (by decide)
  exact ⟨h1, h2, by simpa [envMetrics, envOk] using h3⟩

/-- Claim C10: the alerts table is mutated only on the failure path: an
alert all of whose requested handlers succeed leaves the store untouched
and contributes no INSERT or DELETE, and every row present after a run is
either an original row, unchanged, or a freshly synthesized failure
record; no row is ever updated in place. -/
theorem store_writes_only_failure_path (env : Env) (store : AlertsStore) :
    (∀ (row : AlertRow) (s : AlertsStore),
      (∀ h ∈ handlersOf row, env.handleAlert h row = none) →
      (dispatch_alert env row s).1 = s ∧
      dbWriteEvents (dispatch_alert env row s).2 = []) ∧
    (∀ r ∈ (main env store).store.rows,
      r ∈ store.rows ∨ ∃ a e, r = insertRow (failure_alert env a e)) := by
  constructor
  · intro row s hall
    exact dispatch_success env row s hall
  · intro r hr
    exact rows_run_alerts env ((get_new_alerts store).1) store r hr

/-- Witness for C10: a dispatch whose handler succeeds leaves the concrete
store unchanged and performs no store write. -/
theorem store_writes_only_failure_path_witness :
    (dispatch_alert envOk rowC10 storeC10).1 = storeC10 ∧
    dbWriteEvents (dispatch_alert envOk rowC10 storeC10).2 = [] :=
  (store_writes_only_failure_path envOk storeC10).1 rowC10 storeC10 (by decide)

end SnowAlert
